import Mathlib

set_option maxRecDepth 8000
set_option maxHeartbeats 1000000

namespace Metaplex

/-- Public keys are modelled as natural-number identifiers. -/
abbrev Pubkey := Nat

/-- Modelled from the spec: the system-program sentinel address used as the
"public/none" marker for the whitelisted-creator slot (spec section 4.3 step 4). -/
def system_program_id : Pubkey := 0

/-- Modelled from the spec: record discriminant tags. The state module of this
repository is not under src/; the spec mentions a fixed discriminant tag per
record (sections 3 and 4.2) and the source sets `Key::OriginalAuthorityLookupV1`. -/
inductive Key where
  | Uninitialized
  | OriginalAuthorityLookupV1
  | FractionManagerV1Tag
  | FractionSafetyDepositConfigV1
  deriving DecidableEq

/-- Asset-class variant of a safety deposit box (closed tagged union, spec section 9). -/
inductive FractionWinningConfigType where
  | FractionMasterEditionV2
  | FractionToken
  deriving DecidableEq

/-- Modelled from the spec: Campaign Manager status states (spec section 4.5:
"States of Campaign Manager status: Initialized, Validated"). The state module
of this repository is not under src/. -/
inductive FractionManagerStatus where
  | Initialized
  | Validated
  deriving DecidableEq

/-- Errors raised by this core. The error module of this repository is not under
src/; the variant names are the ones referenced by the source file, with the
loader/utility errors modelled from the spec (sections 4.2 and 7). -/
inductive MetaplexError where
  | AlreadyValidated
  | AlreadyInitialized
  | Uninitialized
  | InvalidRecordType
  | OwnerMismatch
  | InvalidMint
  | VaultAuthorityMismatch
  | FractionManagerTokenMetadataMismatch
  | FractionManagerTokenMetadataProgramMismatch
  | AuthorityMismatch
  | FractionManagerVaultMismatch
  | SafetyDepositBoxVaultMismatch
  | DerivedKeyInvalid
  | NoValidCreator
  | FractionManagerStoreMismatch
  | SafetyDepositBoxMintMismatch
  | TokenProgramMismatch
  | UpdateAuthorityIncorrect
  | SafetyDepositBoxMetadataMismatch
  | InvalidEditionAddress
  | StoreIsEmpty
  | FractionOriginalAuthorityLookupKeyMismatch
  | SafetyDepositConfigOrderMismatch
  | NumericalOverflowError
  deriving DecidableEq

/-- Modelled from the spec: the error taxonomy of spec section 7, which groups
the error variants into kinds ("classes"). -/
inductive ErrorKind where
  | replay
  | missing
  | ownership
  | identity
  | crossReference
  | authorization
  | arithmetic
  | capacity
  deriving DecidableEq

/-- Modelled from the spec: the class (taxonomy kind, spec section 7) of each error. -/
def errorKindOf : MetaplexError → ErrorKind
  | .AlreadyValidated => .replay
  | .AlreadyInitialized => .replay
  | .Uninitialized => .missing
  | .InvalidRecordType => .missing
  | .OwnerMismatch => .ownership
  | .InvalidMint => .missing
  | .VaultAuthorityMismatch => .identity
  | .FractionManagerTokenMetadataMismatch => .identity
  | .FractionManagerTokenMetadataProgramMismatch => .identity
  | .AuthorityMismatch => .authorization
  | .FractionManagerVaultMismatch => .identity
  | .SafetyDepositBoxVaultMismatch => .identity
  | .DerivedKeyInvalid => .identity
  | .NoValidCreator => .authorization
  | .FractionManagerStoreMismatch => .identity
  | .SafetyDepositBoxMintMismatch => .crossReference
  | .TokenProgramMismatch => .ownership
  | .UpdateAuthorityIncorrect => .authorization
  | .SafetyDepositBoxMetadataMismatch => .crossReference
  | .InvalidEditionAddress => .identity
  | .StoreIsEmpty => .capacity
  | .FractionOriginalAuthorityLookupKeyMismatch => .identity
  | .SafetyDepositConfigOrderMismatch => .crossReference
  | .NumericalOverflowError => .arithmetic

/-- The u64 modulus: `safety_config_items_validated` is a u64 in the source. -/
def U64_MOD : Nat := 2 ^ 64

/-- The u64 `checked_add` of the source, on Nat with the explicit 2^64 bound. -/
def checked_add_u64 (a b : Nat) : Option Nat :=
  if a + b < U64_MOD then some (a + b) else none

/-- Rust's `Option::ok_or`, specialised to our error type. -/
def ok_or {α : Type} (o : Option α) (e : MetaplexError) : Except MetaplexError α :=
  match o with
  | some a => .ok a
  | none => .error e

/-- Modelled from the spec: the mutable state of a Campaign Manager — its status
and its validated-box counter (spec section 3 table; state module not under src/). -/
structure FractionManagerStateV1 where
  status : FractionManagerStatus
  safety_config_items_validated : Nat
  deriving DecidableEq

/-- Modelled from the spec: the Campaign Manager record — discriminant tag,
authority, vault reference, store reference and mutable state (spec section 3;
state module not under src/). -/
structure FractionManagerV1 where
  key : Key
  store : Pubkey
  vault : Pubkey
  authority : Pubkey
  state : FractionManagerStateV1
  deriving DecidableEq

/-- Modelled from the spec: the Vault record — authority, declared box count
(spec section 3; the vault subsystem is an external collaborator). -/
structure Vault where
  authority : Pubkey
  token_type_count : Nat
  deriving DecidableEq

/-- Modelled from the spec: a Safety-Deposit Box record — vault back-reference,
token-mint reference and order index (spec section 3). -/
structure SafetyDepositBox where
  vault : Pubkey
  token_mint : Pubkey
  order : Nat
  deriving DecidableEq

/-- Modelled from the spec: one listed creator of the asset metadata. -/
structure Creator where
  address : Pubkey
  verified : Bool
  deriving DecidableEq

/-- Modelled from the spec: the Asset Metadata record — mint reference, update
authority and listed creators (spec section 3; metadata subsystem external). -/
structure Metadata where
  update_authority : Pubkey
  mint : Pubkey
  creators : Option (List Creator)
  deriving DecidableEq

/-- Modelled from the spec: the Store/Registry record — registered program
identities and the public flag (spec section 3). -/
structure Store where
  public : Bool
  token_program : Pubkey
  token_vault_program : Pubkey
  token_metadata_program : Pubkey
  deriving DecidableEq

/-- Modelled from the spec: a Whitelisted-Creator entry — address plus
approval flag (spec section 3). -/
structure WhitelistedCreator where
  address : Pubkey
  activated : Bool
  deriving DecidableEq

/-- Modelled from the spec: the Original-Authority Lookup record — discriminant
tag and the snapshotted original authority (spec section 3). -/
structure OriginalAuthorityLookup where
  key : Key
  original_authority : Pubkey
  deriving DecidableEq

/-- The instruction argument carrying the declared order and asset-class variant. -/
structure FractionSafetyDepositConfig where
  order : Nat
  fraction_winning_config_type : FractionWinningConfigType
  deriving DecidableEq

/-- Modelled from the spec: the persisted Safety-Deposit Config record created by
the Config Writer (spec section 4.6 "writes order + asset-class variant into it"). -/
structure FractionSafetyDepositConfigRecord where
  key : Key
  fraction_manager : Pubkey
  order : Nat
  fraction_winning_config_type : FractionWinningConfigType
  deriving DecidableEq

/-- An spl-token token account (the safety-deposit token store). -/
structure TokenAccount where
  mint : Pubkey
  amount : Nat
  isInitialized : Bool
  deriving DecidableEq

/-- An spl-token mint record. -/
structure Mint where
  isInitialized : Bool
  deriving DecidableEq

/-- The possible deserialized contents of an account's data:
`empty` is zero-length data, `zeroed` is freshly allocated all-zero data, and
`other` is data of some shape this core does not recognise. -/
inductive AccountContents where
  | empty
  | zeroed
  | fractionManagerV1 (fm : FractionManagerV1)
  | safetyDepositBox (sd : SafetyDepositBox)
  | metadata (md : Metadata)
  | store (s : Store)
  | vault (v : Vault)
  | originalAuthorityLookup (oal : OriginalAuthorityLookup)
  | fractionSafetyDepositConfig (c : FractionSafetyDepositConfigRecord)
  | tokenAccount (a : TokenAccount)
  | mintAccount (m : Mint)
  | whitelistedCreator (w : WhitelistedCreator)
  | other
  deriving DecidableEq

/-- An account: address, owning program, and current data contents. -/
structure Account where
  key : Pubkey
  owner : Pubkey
  contents : AccountContents
  deriving DecidableEq

/-- The `data_is_empty` test of `AccountInfo`. -/
abbrev data_is_empty (a : Account) : Prop := a.contents = AccountContents.empty

/-- One program-derived-address seed: a string literal, a pubkey, or a bump byte. -/
inductive Seed where
  | str (s : String)
  | key (p : Pubkey)
  | byte (n : Nat)
  deriving DecidableEq

/-- Numeric value of a seed, used by the abstract address-derivation function. -/
def seedVal : Seed → Nat
  | .str s => s.length
  | .key p => p
  | .byte n => n

/-- Modelled from the spec: the deterministic derived-address primitive
(spec section 4.1, "assumed given"). It is an arbitrary but fixed computable
function of the seed sequence and the program identity, returning the derived
address and a bump nonce. -/
def find_program_address (seeds : List Seed) (program_id : Pubkey) : Pubkey × Nat :=
  (seeds.foldl (fun a s => a * 1000003 + seedVal s + 1) (program_id + 11), 255)

/-- The string constant `PREFIX` of this program's state module. -/
def PREFIX_STR : String := "metaplex"

/-- The string constant `mpl_token_metadata::state::PREFIX`. -/
def TOKEN_METADATA_PREFIX_STR : String := "metadata"

/-- The string constant `mpl_token_metadata::state::EDITION`. -/
def EDITION_STR : String := "edition"

/-- The string constant `mpl_token_vault::state::PREFIX`. -/
def TOKEN_VAULT_PREFIX_STR : String := "vault"

/-- The constant `MAX_AUTHORITY_LOOKUP_SIZE` (tag byte plus one pubkey). -/
def MAX_AUTHORITY_LOOKUP_SIZE : Nat := 1 + 32

/-- Modelled from the spec: `created_size` of the config record (spec section 4.6
"allocates storage sized exactly to the config payload"). -/
def FractionSafetyDepositConfig.created_size (_ : FractionSafetyDepositConfig) : Nat :=
  1 + 32 + 8 + 1

/-- Modelled from the spec: the Record Loader for `FractionManagerV1` (spec
section 4.2: deserialize with a fixed discriminant tag, fail with
`InvalidRecordType` on tag mismatch). -/
def FractionManagerV1.from_account_info (a : Account) : Except MetaplexError FractionManagerV1 :=
  match a.contents with
  | .fractionManagerV1 fm => .ok fm
  | _ => .error .InvalidRecordType

/-- Modelled from the spec: the Record Loader for `SafetyDepositBox`. -/
def SafetyDepositBox.from_account_info (a : Account) : Except MetaplexError SafetyDepositBox :=
  match a.contents with
  | .safetyDepositBox sd => .ok sd
  | _ => .error .InvalidRecordType

/-- Modelled from the spec: the Record Loader for `Metadata`. -/
def Metadata.from_account_info (a : Account) : Except MetaplexError Metadata :=
  match a.contents with
  | .metadata md => .ok md
  | _ => .error .InvalidRecordType

/-- Modelled from the spec: the Record Loader for `Store`. -/
def Store.from_account_info (a : Account) : Except MetaplexError Store :=
  match a.contents with
  | .store s => .ok s
  | _ => .error .InvalidRecordType

/-- Modelled from the spec: the Record Loader for `Vault`. -/
def Vault.from_account_info (a : Account) : Except MetaplexError Vault :=
  match a.contents with
  | .vault v => .ok v
  | _ => .error .InvalidRecordType

/-- Modelled from the spec: the Record Loader for `OriginalAuthorityLookup`.
Freshly allocated all-zero data deserializes to the `Uninitialized` tag with a
zero authority, matching borsh deserialization of zeroed bytes. -/
def OriginalAuthorityLookup.from_account_info (a : Account) :
    Except MetaplexError OriginalAuthorityLookup :=
  match a.contents with
  | .originalAuthorityLookup oal => .ok oal
  | .zeroed => .ok { key := Key.Uninitialized, original_authority := 0 }
  | _ => .error .InvalidRecordType

/-- Modelled from the spec: `assert_initialized` for an spl-token account (the
utils module of this repository is not under src/; spec section 4.4 "reads the
safety-deposit box's token store and asserts it is initialized"). -/
def assert_initialized_token_account (a : Account) : Except MetaplexError TokenAccount :=
  match a.contents with
  | .tokenAccount t => if t.isInitialized then .ok t else .error .Uninitialized
  | _ => .error .Uninitialized

/-- Modelled from the spec: `assert_initialized` for an spl-token mint (spec
section 4.3 step 1: "Mint record is well-formed and initialized (InvalidMint)"). -/
def assert_initialized_mint (a : Account) : Except MetaplexError Mint :=
  match a.contents with
  | .mintAccount m => if m.isInitialized then .ok m else .error .InvalidMint
  | _ => .error .InvalidMint

/-- Modelled from the spec: `assert_owned_by` (utils module not under src/; spec
section 4.2: fail with `OwnerMismatch` if the record's owning registrant differs
from the expected registrant). -/
def assert_owned_by (account : Account) (owner : Pubkey) : Except MetaplexError Unit :=
  if account.owner ≠ owner then .error .OwnerMismatch else .ok ()

/-- Modelled from the spec: `assert_derivation` (spec section 4.1: recompute the
derived address from the seeds and fail when the candidate differs). -/
def assert_derivation (program_id : Pubkey) (account : Account) (seeds : List Seed) :
    Except MetaplexError Nat :=
  let derived := find_program_address seeds program_id
  if account.key ≠ derived.1 then .error .DerivedKeyInvalid else .ok derived.2

/-- Modelled from the spec: `assert_authority_correct` (spec section 4.3 step 9:
Campaign Manager authority must equal the supplied authorizing identity). -/
def assert_authority_correct (authority : Pubkey) (authority_info : Account) :
    Except MetaplexError Unit :=
  if authority ≠ authority_info.key then .error .AuthorityMismatch else .ok ()

/-- Modelled from the spec: `assert_update_authority_is_correct` of the metadata
subsystem (spec section 4.4: the supplied authorizer must equal the asset's
current update authority, `UpdateAuthorityIncorrect` otherwise). -/
def assert_update_authority_is_correct (metadata : Metadata) (update_authority_info : Account) :
    Except MetaplexError Unit :=
  if metadata.update_authority ≠ update_authority_info.key then
    .error .UpdateAuthorityIncorrect
  else .ok ()

/-- Modelled from the spec: `assert_store_safety_vault_manager_match` (spec
section 4.3 step 10: the Vault/Safety-Deposit-Box pairing must match the
registered vault-management relationship). -/
def assert_store_safety_vault_manager_match (manager_vault : Pubkey)
    (safety_deposit_info vault_info : Account) (token_vault_program : Pubkey) :
    Except MetaplexError Unit := do
  if manager_vault ≠ vault_info.key then throw MetaplexError.FractionManagerVaultMismatch
  let safety_deposit ← SafetyDepositBox.from_account_info safety_deposit_info
  if safety_deposit.vault ≠ vault_info.key then throw MetaplexError.SafetyDepositBoxVaultMismatch
  let _ ← assert_derivation token_vault_program safety_deposit_info
    [Seed.str TOKEN_VAULT_PREFIX_STR, Seed.key vault_info.key, Seed.key safety_deposit.token_mint]
  pure ()

/-- Modelled from the spec: whether one listed creator is matched by the supplied
whitelisted-creator entry (spec section 4.3 step 11). -/
def creator_is_whitelisted (c : Creator) (whitelisted_creator_info : Account) : Bool :=
  c.verified &&
    (match whitelisted_creator_info.contents with
     | .whitelistedCreator w => w.activated && (w.address = c.address)
     | _ => false)

/-- Modelled from the spec:
`assert_at_least_one_fraction_creator_matches_or_store_public_and_all_verified`
(spec section 4.3 step 11: at least one listed creator is verified and
whitelisted, OR the store is public and all listed creators are verified). -/
def assert_at_least_one_fraction_creator_matches_or_store_public_and_all_verified
    (_program_id : Pubkey) (_fraction_manager : FractionManagerV1) (metadata : Metadata)
    (whitelisted_creator_info : Account) (store_info : Account) :
    Except MetaplexError Unit := do
  let store ← Store.from_account_info store_info
  match metadata.creators with
  | some creators =>
    if creators.any (fun c => creator_is_whitelisted c whitelisted_creator_info) then
      pure ()
    else if store.public && creators.all (fun c => c.verified) then
      pure ()
    else throw MetaplexError.NoValidCreator
  | none =>
    if store.public then pure () else throw MetaplexError.NoValidCreator

/-- Modelled from the spec: `create_or_allocate_account_raw` (the
storage-allocation primitive, "assumed given", spec sections 1 and 4.2): it
allocates zeroed storage for the account and assigns it to this program, failing
when the slot is already occupied. -/
def create_or_allocate_account_raw (program_id : Pubkey)
    (new_account_info _rent_info _system_info _payer_info : Account)
    (_size : Nat) (_signer_seeds : List Seed) : Except MetaplexError Account :=
  if new_account_info.contents = AccountContents.empty then
    .ok { new_account_info with owner := program_id, contents := AccountContents.zeroed }
  else .error .AlreadyInitialized

/-- Modelled from the spec: the custody-transfer operation
`transfer_metadata_ownership` (spec section 4.4: an external authority-change
call moving metadata authority from the original owner to the new authority;
the metadata subsystem itself rejects a wrong current authority). The result is
the updated metadata account. -/
def transfer_metadata_ownership (_token_metadata_program_info : Account)
    (metadata_info update_authority_info new_update_authority_info : Account)
    (_signer_seeds : List Seed) : Except MetaplexError Account := do
  let md ← Metadata.from_account_info metadata_info
  if md.update_authority ≠ update_authority_info.key then
    throw MetaplexError.UpdateAuthorityIncorrect
  pure { metadata_info with
    contents := AccountContents.metadata { md with
      update_authority := new_update_authority_info.key } }

/-- Modelled from the spec: `FractionSafetyDepositConfig::create` (spec section
4.6: the Config Writer writes order plus asset-class variant into the freshly
allocated account, tagged with its discriminant). -/
def FractionSafetyDepositConfig.create (c : FractionSafetyDepositConfig)
    (account : Account) (fraction_manager_key : Pubkey) : Account :=
  { account with
    contents := AccountContents.fractionSafetyDepositConfig
      { key := Key.FractionSafetyDepositConfigV1
        fraction_manager := fraction_manager_key
        order := c.order
        fraction_winning_config_type := c.fraction_winning_config_type } }

/-- The first token-metadata registrant comparison of `assert_common_checks`
(source lines 146-148): the supplied identity must equal the Store's recorded
value, failing with `FractionManagerTokenMetadataMismatch`. -/
def check_token_metadata_program_first (token_metadata_program_key : Pubkey) (store : Store) :
    Except MetaplexError Unit :=
  if token_metadata_program_key ≠ store.token_metadata_program then
    .error .FractionManagerTokenMetadataMismatch
  else .ok ()

/-- The second, duplicate token-metadata registrant comparison of
`assert_common_checks` (source lines 173-175): the same condition, failing with
`FractionManagerTokenMetadataProgramMismatch`. -/
def check_token_metadata_program_second (token_metadata_program_key : Pubkey) (store : Store) :
    Except MetaplexError Unit :=
  if token_metadata_program_key ≠ store.token_metadata_program then
    .error .FractionManagerTokenMetadataProgramMismatch
  else .ok ()

/-- The argument bundle of `assert_common_checks` (source struct `CommonCheckArgs`). -/
structure CommonCheckArgs where
  program_id : Pubkey
  fraction_manager_info : Account
  metadata_info : Account
  original_authority_lookup_info : Account
  whitelisted_creator_info : Account
  safety_deposit_info : Account
  safety_deposit_token_store_info : Account
  edition_info : Account
  vault_info : Account
  mint_info : Account
  token_metadata_program_info : Account
  fraction_manager_store_info : Account
  authority_info : Account
  store : Store
  fraction_manager : FractionManagerV1
  metadata : Metadata
  safety_deposit : SafetyDepositBox
  vault : Vault
  winning_config_type : FractionWinningConfigType

/-- The Common Invariant Checker, translated check by check from
`assert_common_checks` (source lines 93-185). -/
def assert_common_checks (args : CommonCheckArgs) : Except MetaplexError Unit := do
  let _mint ← assert_initialized_mint args.mint_info
  if args.vault.authority ≠ args.fraction_manager_info.key then
    throw MetaplexError.VaultAuthorityMismatch
  assert_owned_by args.fraction_manager_info args.program_id
  assert_owned_by args.metadata_info args.store.token_metadata_program
  if ¬ data_is_empty args.original_authority_lookup_info then
    throw MetaplexError.AlreadyInitialized
  if args.whitelisted_creator_info.key ≠ system_program_id then
    if data_is_empty args.whitelisted_creator_info then
      throw MetaplexError.Uninitialized
    else
      assert_owned_by args.whitelisted_creator_info args.program_id
  assert_owned_by args.fraction_manager_store_info args.program_id
  assert_owned_by args.safety_deposit_info args.store.token_vault_program
  assert_owned_by args.safety_deposit_token_store_info args.store.token_program
  assert_owned_by args.mint_info args.store.token_program
  if args.winning_config_type ≠ FractionWinningConfigType.FractionToken then
    assert_owned_by args.edition_info args.store.token_metadata_program
  assert_owned_by args.vault_info args.store.token_vault_program
  check_token_metadata_program_first args.token_metadata_program_info.key args.store
  assert_authority_correct args.fraction_manager.authority args.authority_info
  assert_store_safety_vault_manager_match args.fraction_manager.vault
    args.safety_deposit_info args.vault_info args.store.token_vault_program
  assert_at_least_one_fraction_creator_matches_or_store_public_and_all_verified
    args.program_id args.fraction_manager args.metadata
    args.whitelisted_creator_info args.fraction_manager_store_info
  if args.fraction_manager.store ≠ args.fraction_manager_store_info.key then
    throw MetaplexError.FractionManagerStoreMismatch
  if args.mint_info.key ≠ args.safety_deposit.token_mint then
    throw MetaplexError.SafetyDepositBoxMintMismatch
  check_token_metadata_program_second args.token_metadata_program_info.key args.store
  if args.mint_info.owner ≠ args.store.token_program then
    throw MetaplexError.TokenProgramMismatch
  pure ()

/-- The argument bundle of `assert_supply_logic_check` (source struct
`SupplyLogicCheckArgs`). -/
structure SupplyLogicCheckArgs where
  program_id : Pubkey
  fraction_manager_info : Account
  metadata_info : Account
  edition_info : Account
  metadata_authority_info : Account
  original_authority_lookup_info : Account
  rent_info : Account
  system_info : Account
  payer_info : Account
  token_metadata_program_info : Account
  safety_deposit_token_store_info : Account
  fraction_manager : FractionManagerV1
  winning_config_type : FractionWinningConfigType
  metadata : Metadata
  safety_deposit : SafetyDepositBox
  store : Store

/-- The Supply-Logic Checker, translated from `assert_supply_logic_check`
(source lines 206-341). It returns the updated metadata account and the updated
original-authority-lookup account (the two accounts it may write). -/
def assert_supply_logic_check (args : SupplyLogicCheckArgs) :
    Except MetaplexError (Account × Account) := do
  let safety_deposit_token_store ←
    assert_initialized_token_account args.safety_deposit_token_store_info
  let edition_seeds := [Seed.str TOKEN_METADATA_PREFIX_STR,
    Seed.key args.store.token_metadata_program, Seed.key args.metadata.mint,
    Seed.str EDITION_STR]
  let edition_key := (find_program_address edition_seeds args.store.token_metadata_program).1
  let vault_key := args.fraction_manager.vault
  let bump_seed := (find_program_address [Seed.str PREFIX_STR, Seed.key vault_key]
    args.program_id).2
  let authority_seeds := [Seed.str PREFIX_STR, Seed.key vault_key, Seed.byte bump_seed]
  match args.winning_config_type with
  | FractionWinningConfigType.FractionMasterEditionV2 => do
    assert_update_authority_is_correct args.metadata args.metadata_authority_info
    if args.safety_deposit.token_mint ≠ args.metadata.mint then
      throw MetaplexError.SafetyDepositBoxMetadataMismatch
    if edition_key ≠ args.edition_info.key then
      throw MetaplexError.InvalidEditionAddress
    if safety_deposit_token_store.amount ≠ 1 then
      throw MetaplexError.StoreIsEmpty
    let original_authority_lookup_seeds :=
      [Seed.str PREFIX_STR, Seed.key vault_key, Seed.key args.metadata_info.key]
    let expected := find_program_address original_authority_lookup_seeds args.program_id
    let original_authority_seeds := [Seed.str PREFIX_STR, Seed.key vault_key,
      Seed.key args.metadata_info.key, Seed.byte expected.2]
    if expected.1 ≠ args.original_authority_lookup_info.key then
      throw MetaplexError.FractionOriginalAuthorityLookupKeyMismatch
    let allocated ← create_or_allocate_account_raw args.program_id
      args.original_authority_lookup_info args.rent_info args.system_info args.payer_info
      MAX_AUTHORITY_LOOKUP_SIZE original_authority_seeds
    let original_authority_lookup ← OriginalAuthorityLookup.from_account_info allocated
    let original_authority_lookup :=
      { original_authority_lookup with key := Key.OriginalAuthorityLookupV1 }
    let original_authority_lookup :=
      { original_authority_lookup with original_authority := args.metadata_authority_info.key }
    let metadata_info' ← transfer_metadata_ownership args.token_metadata_program_info
      args.metadata_info args.metadata_authority_info args.fraction_manager_info
      authority_seeds
    let original_authority_lookup_info' := { allocated with
      contents := AccountContents.originalAuthorityLookup original_authority_lookup }
    pure (metadata_info', original_authority_lookup_info')
  | FractionWinningConfigType.FractionToken => do
    if args.safety_deposit.token_mint ≠ args.metadata.mint then
      throw MetaplexError.SafetyDepositBoxMetadataMismatch
    pure (args.metadata_info, args.original_authority_lookup_info)

/-- The Config Writer, translated from `make_fraction_safety_deposit_config`
(source lines 29-69). It returns the updated safety-deposit-config account. -/
def make_fraction_safety_deposit_config (program_id : Pubkey)
    (fraction_manager_info safety_deposit_info safety_deposit_config_info
      payer_info rent_info system_info : Account)
    (safety_deposit_config : FractionSafetyDepositConfig) : Except MetaplexError Account := do
  let bump ← assert_derivation program_id safety_deposit_config_info
    [Seed.str PREFIX_STR, Seed.key program_id, Seed.key fraction_manager_info.key,
      Seed.key safety_deposit_info.key]
  let allocated ← create_or_allocate_account_raw program_id safety_deposit_config_info
    rent_info system_info payer_info safety_deposit_config.created_size
    [Seed.str PREFIX_STR, Seed.key program_id, Seed.key fraction_manager_info.key,
      Seed.key safety_deposit_info.key, Seed.byte bump]
  pure (safety_deposit_config.create allocated fraction_manager_info.key)

/-- The seventeen accounts consumed by the entry operation, in the order the
source's `next_account_info` calls read them (source lines 348-367). -/
structure Accounts where
  safety_deposit_config_info : Account
  fraction_manager_info : Account
  metadata_info : Account
  original_authority_lookup_info : Account
  whitelisted_creator_info : Account
  fraction_manager_store_info : Account
  safety_deposit_info : Account
  safety_deposit_token_store_info : Account
  mint_info : Account
  edition_info : Account
  vault_info : Account
  authority_info : Account
  metadata_authority_info : Account
  payer_info : Account
  token_metadata_program_info : Account
  system_info : Account
  rent_info : Account
  deriving DecidableEq

/-- The entry operation, translated from
`process_validate_fraction_safety_deposit_box` (source lines 343-449). On
success it returns the seventeen accounts with every write applied. -/
def process_validate_fraction_safety_deposit_box (program_id : Pubkey)
    (accts : Accounts) (safety_deposit_config : FractionSafetyDepositConfig) :
    Except MetaplexError Accounts := do
  if ¬ data_is_empty accts.safety_deposit_config_info then
    throw MetaplexError.AlreadyValidated
  let fraction_manager ← FractionManagerV1.from_account_info accts.fraction_manager_info
  let safety_deposit ← SafetyDepositBox.from_account_info accts.safety_deposit_info
  let metadata ← Metadata.from_account_info accts.metadata_info
  let store ← Store.from_account_info accts.fraction_manager_store_info
  let vault ← Vault.from_account_info accts.vault_info
  assert_common_checks
    { program_id := program_id
      fraction_manager_info := accts.fraction_manager_info
      metadata_info := accts.metadata_info
      original_authority_lookup_info := accts.original_authority_lookup_info
      whitelisted_creator_info := accts.whitelisted_creator_info
      safety_deposit_info := accts.safety_deposit_info
      safety_deposit_token_store_info := accts.safety_deposit_token_store_info
      edition_info := accts.edition_info
      vault_info := accts.vault_info
      mint_info := accts.mint_info
      token_metadata_program_info := accts.token_metadata_program_info
      fraction_manager_store_info := accts.fraction_manager_store_info
      authority_info := accts.authority_info
      store := store
      fraction_manager := fraction_manager
      metadata := metadata
      safety_deposit := safety_deposit
      vault := vault
      winning_config_type := safety_deposit_config.fraction_winning_config_type }
  let written ← assert_supply_logic_check
    { program_id := program_id
      fraction_manager_info := accts.fraction_manager_info
      metadata_info := accts.metadata_info
      edition_info := accts.edition_info
      metadata_authority_info := accts.metadata_authority_info
      original_authority_lookup_info := accts.original_authority_lookup_info
      rent_info := accts.rent_info
      system_info := accts.system_info
      payer_info := accts.payer_info
      token_metadata_program_info := accts.token_metadata_program_info
      safety_deposit_token_store_info := accts.safety_deposit_token_store_info
      fraction_manager := fraction_manager
      winning_config_type := safety_deposit_config.fraction_winning_config_type
      metadata := metadata
      safety_deposit := safety_deposit
      store := store }
  if safety_deposit_config.order ≠ safety_deposit.order then
    throw MetaplexError.SafetyDepositConfigOrderMismatch
  let counter' ← ok_or
    (checked_add_u64 fraction_manager.state.safety_config_items_validated 1)
    MetaplexError.NumericalOverflowError
  let status' := if counter' = vault.token_type_count then FractionManagerStatus.Validated
    else fraction_manager.state.status
  let fraction_manager' := { fraction_manager with
    state := { status := status', safety_config_items_validated := counter' } }
  let fraction_manager_info' := { accts.fraction_manager_info with
    contents := AccountContents.fractionManagerV1 fraction_manager' }
  let safety_deposit_config_info' ← make_fraction_safety_deposit_config program_id
    fraction_manager_info' accts.safety_deposit_info accts.safety_deposit_config_info
    accts.payer_info accts.rent_info accts.system_info safety_deposit_config
  pure { accts with
    safety_deposit_config_info := safety_deposit_config_info'
    fraction_manager_info := fraction_manager_info'
    metadata_info := written.1
    original_authority_lookup_info := written.2 }

/-- The entry operation under the execution environment's transactional
semantics (spec section 5): on success the writes commit, on any failure the
whole unit of work reverts and the accounts are unchanged. -/
def runProcess (program_id : Pubkey) (accts : Accounts)
    (safety_deposit_config : FractionSafetyDepositConfig) : Accounts :=
  match process_validate_fraction_safety_deposit_box program_id accts safety_deposit_config with
  | .ok final => final
  | .error _ => accts

theorem throw_eq {α : Type} (e : MetaplexError) :
    (throw e : Except MetaplexError α) = Except.error e := rfl

theorem pure_eq {α : Type} (a : α) : (pure a : Except MetaplexError α) = Except.ok a := rfl

theorem ok_bind {α β : Type} (a : α) (k : α → Except MetaplexError β) :
    (Except.ok a >>= k) = k a := rfl

theorem error_bind {α β : Type} (e : MetaplexError) (k : α → Except MetaplexError β) :
    (Except.error e >>= k : Except MetaplexError β) = Except.error e := rfl

theorem error_ne_ok {α : Type} {e : MetaplexError} {v : α} :
    (Except.error e = Except.ok v) ↔ False := by simp

theorem bind_ok_iff {α β : Type} {x : Except MetaplexError α} {k : α → Except MetaplexError β}
    {v : β} : (x >>= k = Except.ok v) ↔ ∃ a, x = Except.ok a ∧ k a = Except.ok v := by
  cases x
  · rw [error_bind]; simp
  · rw [ok_bind]; simp

theorem ite_eq_ok_iff {α : Type} {c : Prop} [Decidable c] {x y : Except MetaplexError α}
    {v : α} : ((if c then x else y) = Except.ok v) ↔
      (c ∧ x = Except.ok v) ∨ (¬ c ∧ y = Except.ok v) := by
  split <;> simp_all

theorem ok_or_ok_iff {α : Type} {o : Option α} {e : MetaplexError} {v : α} :
    (ok_or o e = Except.ok v) ↔ o = some v := by
  cases o <;> simp [ok_or]

theorem checked_add_u64_some_iff {a b c : Nat} :
    (checked_add_u64 a b = some c) ↔ (a + b < U64_MOD ∧ c = a + b) := by
  unfold checked_add_u64
  split <;> simp_all
  omega

theorem fm_from_ok_iff {a : Account} {fm : FractionManagerV1} :
    (FractionManagerV1.from_account_info a = Except.ok fm) ↔
      a.contents = AccountContents.fractionManagerV1 fm := by
  cases hc : a.contents <;> simp [FractionManagerV1.from_account_info, hc]

theorem sd_from_ok_iff {a : Account} {sd : SafetyDepositBox} :
    (SafetyDepositBox.from_account_info a = Except.ok sd) ↔
      a.contents = AccountContents.safetyDepositBox sd := by
  cases hc : a.contents <;> simp [SafetyDepositBox.from_account_info, hc]

theorem md_from_ok_iff {a : Account} {md : Metadata} :
    (Metadata.from_account_info a = Except.ok md) ↔
      a.contents = AccountContents.metadata md := by
  cases hc : a.contents <;> simp [Metadata.from_account_info, hc]

theorem store_from_ok_iff {a : Account} {s : Store} :
    (Store.from_account_info a = Except.ok s) ↔ a.contents = AccountContents.store s := by
  cases hc : a.contents <;> simp [Store.from_account_info, hc]

theorem vault_from_ok_iff {a : Account} {v : Vault} :
    (Vault.from_account_info a = Except.ok v) ↔ a.contents = AccountContents.vault v := by
  cases hc : a.contents <;> simp [Vault.from_account_info, hc]

def commonArgsOf (pid : Pubkey) (accts : Accounts) (fm : FractionManagerV1) (md : Metadata)
    (sd : SafetyDepositBox) (st : Store) (v : Vault) (cfg : FractionSafetyDepositConfig) :
    CommonCheckArgs :=
  { program_id := pid
    fraction_manager_info := accts.fraction_manager_info
    metadata_info := accts.metadata_info
    original_authority_lookup_info := accts.original_authority_lookup_info
    whitelisted_creator_info := accts.whitelisted_creator_info
    safety_deposit_info := accts.safety_deposit_info
    safety_deposit_token_store_info := accts.safety_deposit_token_store_info
    edition_info := accts.edition_info
    vault_info := accts.vault_info
    mint_info := accts.mint_info
    token_metadata_program_info := accts.token_metadata_program_info
    fraction_manager_store_info := accts.fraction_manager_store_info
    authority_info := accts.authority_info
    store := st
    fraction_manager := fm
    metadata := md
    safety_deposit := sd
    vault := v
    winning_config_type := cfg.fraction_winning_config_type }

def supplyArgsOf (pid : Pubkey) (accts : Accounts) (fm : FractionManagerV1) (md : Metadata)
    (sd : SafetyDepositBox) (st : Store) (cfg : FractionSafetyDepositConfig) :
    SupplyLogicCheckArgs :=
  { program_id := pid
    fraction_manager_info := accts.fraction_manager_info
    metadata_info := accts.metadata_info
    edition_info := accts.edition_info
    metadata_authority_info := accts.metadata_authority_info
    original_authority_lookup_info := accts.original_authority_lookup_info
    rent_info := accts.rent_info
    system_info := accts.system_info
    payer_info := accts.payer_info
    token_metadata_program_info := accts.token_metadata_program_info
    safety_deposit_token_store_info := accts.safety_deposit_token_store_info
    fraction_manager := fm
    winning_config_type := cfg.fraction_winning_config_type
    metadata := md
    safety_deposit := sd
    store := st }

theorem process_ok_elim {pid : Pubkey} {accts : Accounts} {cfg : FractionSafetyDepositConfig}
    {final : Accounts}
    (h : process_validate_fraction_safety_deposit_box pid accts cfg = Except.ok final) :
    ∃ (fm : FractionManagerV1) (sd : SafetyDepositBox) (md : Metadata) (st : Store)
      (v : Vault) (written : Account × Account),
      accts.safety_deposit_config_info.contents = AccountContents.empty ∧
      accts.fraction_manager_info.contents = AccountContents.fractionManagerV1 fm ∧
      accts.safety_deposit_info.contents = AccountContents.safetyDepositBox sd ∧
      accts.metadata_info.contents = AccountContents.metadata md ∧
      accts.fraction_manager_store_info.contents = AccountContents.store st ∧
      accts.vault_info.contents = AccountContents.vault v ∧
      assert_common_checks (commonArgsOf pid accts fm md sd st v cfg) = Except.ok () ∧
      assert_supply_logic_check (supplyArgsOf pid accts fm md sd st cfg) = Except.ok written ∧
      cfg.order = sd.order ∧
      final = { accts with
        safety_deposit_config_info := cfg.create
          { accts.safety_deposit_config_info with
            owner := pid
            contents := AccountContents.zeroed }
          accts.fraction_manager_info.key
        fraction_manager_info := { accts.fraction_manager_info with
          contents := AccountContents.fractionManagerV1 { fm with state := {
            status := if fm.state.safety_config_items_validated + 1 = v.token_type_count
              then FractionManagerStatus.Validated else fm.state.status,
            safety_config_items_validated := fm.state.safety_config_items_validated + 1 } } }
        metadata_info := written.1
        original_authority_lookup_info := written.2 } := by
  simp only [process_validate_fraction_safety_deposit_box, bind_ok_iff, throw_eq, pure_eq,
    ite_eq_ok_iff, ok_or_ok_iff, checked_add_u64_some_iff, fm_from_ok_iff, sd_from_ok_iff,
    md_from_ok_iff, store_from_ok_iff, vault_from_ok_iff, make_fraction_safety_deposit_config,
    assert_derivation, create_or_allocate_account_raw, error_ne_ok,
    ne_eq, not_not, false_and, and_false, false_or, or_false, not_true, not_false_iff,
    true_and, and_true, exists_false, Except.ok.injEq, exists_eq_left, exists_eq_left'] at h
  obtain ⟨h0, u1, fm, hfm, sd, hsd, md, hmd, st, hst, v, hv, u2, hcc, w, hsc, hord, u3, c',
    ⟨hlt, hc'⟩, cfgA, ⟨bump, ⟨hkey, hbump⟩, za, ⟨hemp2, hza⟩, hcreate⟩, hfinal⟩ := h
  subst hc' hza hcreate hfinal
  exact ⟨fm, sd, md, st, v, w, h0, hfm, hsd, hmd, hst, hv, hcc, hsc, hord, rfl⟩


theorem ok_ne_error {α : Type} {v : α} {e : MetaplexError} :
    (Except.ok v = Except.error e) ↔ False := by simp

theorem bind_error_iff {α β : Type} {x : Except MetaplexError α}
    {k : α → Except MetaplexError β} {e : MetaplexError} :
    (x >>= k = Except.error e) ↔
      (x = Except.error e ∨ ∃ a, x = Except.ok a ∧ k a = Except.error e) := by
  cases x
  · rw [error_bind]; simp
  · rw [ok_bind]; simp

theorem ite_eq_error_iff {α : Type} {c : Prop} [Decidable c] {x y : Except MetaplexError α}
    {e : MetaplexError} : ((if c then x else y) = Except.error e) ↔
      (c ∧ x = Except.error e) ∨ (¬ c ∧ y = Except.error e) := by
  split <;> simp_all

theorem md_from_error_iff {a : Account} {e : MetaplexError} :
    (Metadata.from_account_info a = Except.error e) ↔
      ((∀ md, a.contents ≠ AccountContents.metadata md) ∧ e = MetaplexError.InvalidRecordType) := by
  cases hc : a.contents <;> simp [Metadata.from_account_info, hc, eq_comm]

theorem oal_from_error_iff {a : Account} {e : MetaplexError} :
    (OriginalAuthorityLookup.from_account_info a = Except.error e) ↔
      ((∀ r, a.contents ≠ AccountContents.originalAuthorityLookup r) ∧
        a.contents ≠ AccountContents.zeroed ∧ e = MetaplexError.InvalidRecordType) := by
  cases hc : a.contents <;> simp [OriginalAuthorityLookup.from_account_info, hc, eq_comm]

theorem oal_from_ok_zeroed :
    ∀ {a : Account}, a.contents = AccountContents.zeroed →
      OriginalAuthorityLookup.from_account_info a =
        Except.ok { key := Key.Uninitialized, original_authority := 0 } := by
  intro a h
  simp [OriginalAuthorityLookup.from_account_info, h]

/-- Elimination for a successful unique-edition supply-logic check. -/
theorem supply_master_ok_elim {args : SupplyLogicCheckArgs} {p : Account × Account}
    (hty : args.winning_config_type = FractionWinningConfigType.FractionMasterEditionV2)
    (h : assert_supply_logic_check args = Except.ok p) :
    ∃ (ts : TokenAccount) (md2 : Metadata),
      assert_initialized_token_account args.safety_deposit_token_store_info = Except.ok ts ∧
      args.metadata.update_authority = args.metadata_authority_info.key ∧
      args.safety_deposit.token_mint = args.metadata.mint ∧
      ts.amount = 1 ∧
      args.original_authority_lookup_info.contents = AccountContents.empty ∧
      args.metadata_info.contents = AccountContents.metadata md2 ∧
      md2.update_authority = args.metadata_authority_info.key ∧
      p.1 = { args.metadata_info with
        contents := AccountContents.metadata { md2 with
          update_authority := args.fraction_manager_info.key } } ∧
      p.2 = { args.original_authority_lookup_info with
        owner := args.program_id
        contents := AccountContents.originalAuthorityLookup
          { key := Key.OriginalAuthorityLookupV1
            original_authority := args.metadata_authority_info.key } } := by
  simp only [assert_supply_logic_check, hty, bind_ok_iff, throw_eq, pure_eq, ite_eq_ok_iff,
    error_ne_ok, assert_update_authority_is_correct, transfer_metadata_ownership,
    create_or_allocate_account_raw, OriginalAuthorityLookup.from_account_info,
    md_from_ok_iff, ne_eq, not_not, false_and, and_false, false_or, or_false, not_true,
    not_false_iff, true_and, and_true, exists_false, Except.ok.injEq, exists_eq_left,
    exists_eq_left'] at h
  obtain ⟨ts, hts, u1, hupd, hmint, u2, hed, u3, hamt, u4, hokey, u5, za, ⟨hoalempty, hza⟩,
    oal0, hoal0, mA, ⟨md2, hmd2c, hmd2u, u6, hmA⟩, hp⟩ := h
  subst hza hmA hp
  exact ⟨ts, md2, hts, hupd, hmint, hamt, hoalempty, hmd2c, hmd2u, rfl, rfl⟩


/-- Characterization of the fungible-variant supply-logic check. -/
theorem supply_token_ok_iff {args : SupplyLogicCheckArgs} {p : Account × Account}
    (hty : args.winning_config_type = FractionWinningConfigType.FractionToken) :
    (assert_supply_logic_check args = Except.ok p) ↔
      ((∃ ts, assert_initialized_token_account args.safety_deposit_token_store_info =
          Except.ok ts) ∧
        args.safety_deposit.token_mint = args.metadata.mint ∧
        p = (args.metadata_info, args.original_authority_lookup_info)) := by
  simp only [assert_supply_logic_check, hty, bind_ok_iff, throw_eq, pure_eq, ite_eq_ok_iff,
    error_ne_ok, ne_eq, not_not, false_and, and_false, false_or, or_false, true_and, and_true,
    exists_false, Except.ok.injEq, exists_eq_left, exists_eq_left']
  constructor
  · rintro ⟨ts, hts, hmint, u, hp⟩
    exact ⟨⟨ts, hts⟩, hmint, hp.symm⟩
  · rintro ⟨⟨ts, hts⟩, hmint, hp⟩
    exact ⟨ts, hts, hmint, PUnit.unit, hp.symm⟩

/-- A successful run of the Common Invariant Checker requires the
original-authority-lookup slot to be empty. -/
theorem common_ok_lookup_empty {args : CommonCheckArgs} {u : Unit}
    (h : assert_common_checks args = Except.ok u) :
    args.original_authority_lookup_info.contents = AccountContents.empty := by
  simp only [assert_common_checks, bind_ok_iff, throw_eq, pure_eq, ite_eq_ok_iff,
    error_ne_ok, ne_eq, not_not, false_and, and_false, false_or, or_false, true_and, and_true,
    exists_false, Except.ok.injEq, exists_eq_left, exists_eq_left'] at h
  obtain ⟨m, hm, hva, b1, b2, hC, b3, hD, hE, _⟩ := h
  exact hE

/-- Claim C7: in the unique-edition branch, with every check before the amount
comparison passing, the supply-logic check fails with `StoreIsEmpty` exactly
when the token store's held amount is not one (zero and greater-than-one
alike), and when the amount is exactly one it never produces `StoreIsEmpty`. -/
theorem c7_store_amount_exactly_one (args : SupplyLogicCheckArgs) (ts : TokenAccount)
    (hty : args.winning_config_type = FractionWinningConfigType.FractionMasterEditionV2)
    (hts : assert_initialized_token_account args.safety_deposit_token_store_info = Except.ok ts)
    (hupd : args.metadata.update_authority = args.metadata_authority_info.key)
    (hmint : args.safety_deposit.token_mint = args.metadata.mint)
    (hed : (find_program_address [Seed.str TOKEN_METADATA_PREFIX_STR,
        Seed.key args.store.token_metadata_program, Seed.key args.metadata.mint,
        Seed.str EDITION_STR] args.store.token_metadata_program).1 = args.edition_info.key) :
    (ts.amount ≠ 1 →
      assert_supply_logic_check args = Except.error MetaplexError.StoreIsEmpty) ∧
    (ts.amount = 1 →
      assert_supply_logic_check args ≠ Except.error MetaplexError.StoreIsEmpty) := by
  constructor
  · intro hne
    simp [assert_supply_logic_check, hty, hts, ok_bind, error_bind, throw_eq, pure_eq,
      assert_update_authority_is_correct, hupd, hmint, hed, hne]
  · intro h1 hcontra
    simp [assert_supply_logic_check, hty, hts, ok_bind, error_bind, throw_eq, pure_eq,
      assert_update_authority_is_correct, hupd, hmint, hed, h1,
      bind_error_iff, ite_eq_error_iff, ite_eq_ok_iff, create_or_allocate_account_raw,
      transfer_metadata_ownership, OriginalAuthorityLookup.from_account_info,
      md_from_error_iff] at hcontra
    obtain ⟨-, a, ⟨-, ha⟩, hm⟩ := hcontra
    subst ha
    simp at hm

/-- A concrete store record used by the worked examples. -/
def goldStore : Store :=
  { public := true, token_program := 2, token_vault_program := 3, token_metadata_program := 4 }

/-- A concrete vault with two declared boxes. -/
def goldVault : Vault := { authority := 10, token_type_count := 2 }

/-- A concrete campaign manager in its initial state. -/
def goldFm : FractionManagerV1 :=
  { key := Key.FractionManagerV1Tag, store := 15, vault := 11, authority := 16
    state := { status := FractionManagerStatus.Initialized, safety_config_items_validated := 0 } }

/-- The derived address of the example safety deposit box. -/
def sdKey : Pubkey :=
  (find_program_address [Seed.str TOKEN_VAULT_PREFIX_STR, Seed.key 11, Seed.key 14] 3).1

/-- A concrete safety deposit box of order zero. -/
def goldSd : SafetyDepositBox := { vault := 11, token_mint := 14, order := 0 }

/-- A concrete asset metadata record with no listed creators. -/
def goldMd : Metadata := { update_authority := 17, mint := 14, creators := none }

/-- The derived edition address for the example asset. -/
def editionKey : Pubkey :=
  (find_program_address [Seed.str TOKEN_METADATA_PREFIX_STR, Seed.key 4, Seed.key 14,
    Seed.str EDITION_STR] 4).1

/-- The derived original-authority-lookup address for the example asset. -/
def oalKey : Pubkey :=
  (find_program_address [Seed.str PREFIX_STR, Seed.key 11, Seed.key 13] 1).1

/-- The derived safety-deposit-config address for the example box. -/
def cfgKey : Pubkey :=
  (find_program_address [Seed.str PREFIX_STR, Seed.key 1, Seed.key 10, Seed.key sdKey] 1).1

/-- A fully valid concrete account set for the entry operation, under program
identity 1. -/
def gold : Accounts :=
  { safety_deposit_config_info := { key := cfgKey, owner := 0, contents := AccountContents.empty }
    fraction_manager_info :=
      { key := 10, owner := 1, contents := AccountContents.fractionManagerV1 goldFm }
    metadata_info := { key := 13, owner := 4, contents := AccountContents.metadata goldMd }
    original_authority_lookup_info :=
      { key := oalKey, owner := 0, contents := AccountContents.empty }
    whitelisted_creator_info := { key := 0, owner := 0, contents := AccountContents.other }
    fraction_manager_store_info :=
      { key := 15, owner := 1, contents := AccountContents.store goldStore }
    safety_deposit_info :=
      { key := sdKey, owner := 3, contents := AccountContents.safetyDepositBox goldSd }
    safety_deposit_token_store_info :=
      { key := 19, owner := 2
        contents := AccountContents.tokenAccount { mint := 14, amount := 1, isInitialized := true } }
    mint_info :=
      { key := 14, owner := 2, contents := AccountContents.mintAccount { isInitialized := true } }
    edition_info := { key := editionKey, owner := 4, contents := AccountContents.other }
    vault_info := { key := 11, owner := 3, contents := AccountContents.vault goldVault }
    authority_info := { key := 16, owner := 0, contents := AccountContents.other }
    metadata_authority_info := { key := 17, owner := 0, contents := AccountContents.other }
    payer_info := { key := 18, owner := 0, contents := AccountContents.other }
    token_metadata_program_info := { key := 4, owner := 0, contents := AccountContents.other }
    system_info := { key := 0, owner := 0, contents := AccountContents.other }
    rent_info := { key := 20, owner := 0, contents := AccountContents.other } }

/-- The unique-edition instruction argument for the example box. -/
def goldCfg : FractionSafetyDepositConfig :=
  { order := 0, fraction_winning_config_type := FractionWinningConfigType.FractionMasterEditionV2 }

/-- The fungible instruction argument for the example box. -/
def goldCfgToken : FractionSafetyDepositConfig :=
  { order := 0, fraction_winning_config_type := FractionWinningConfigType.FractionToken }

/-- The accounts after a successful unique-edition run on the example input. -/
def goldFinal : Accounts := runProcess 1 gold goldCfg

/-- The example run succeeds and commits exactly the computed final accounts. -/
theorem gold_process_ok :
    process_validate_fraction_safety_deposit_box 1 gold goldCfg = Except.ok goldFinal := rfl

/-- The accounts after a successful fungible run on the example input. -/
def goldFinalToken : Accounts := runProcess 1 gold goldCfgToken

/-- The fungible example run succeeds as well. -/
theorem gold_process_token_ok :
    process_validate_fraction_safety_deposit_box 1 gold goldCfgToken =
      Except.ok goldFinalToken := rfl

/-- The fixed environment of one fractionalization campaign: the program
identity, the set of safety-deposit-box addresses belonging to the campaign's
vault, and the vault's declared box count. -/
structure CampaignEnv where
  program_id : Pubkey
  boxes : Finset Pubkey
  box_count : Nat

/-- The externally visible campaign state across invocations: the Campaign
Manager record and the set of boxes whose Safety-Deposit Config record is
non-empty (already validated). -/
structure CampaignState where
  fm : FractionManagerV1
  validated : Finset Pubkey

/-- States reachable by repeated invocations of the entry operation, under the
execution environment assumptions of spec section 5: the campaign starts
`Initialized` with a zero counter, each step is one successful run of the entry
operation on a box of the campaign's vault, the supplied Campaign Manager
account holds the current manager record, and the box's config account is empty
exactly when the box has not been validated yet. -/
inductive Reachable (env : CampaignEnv) : CampaignState → Prop
  | init (fm0 : FractionManagerV1)
      (hcount : fm0.state.safety_config_items_validated = 0)
      (hstatus : fm0.state.status = FractionManagerStatus.Initialized) :
      Reachable env { fm := fm0, validated := ∅ }
  | step (s : CampaignState) (accts final : Accounts)
      (cfg : FractionSafetyDepositConfig) (fm' : FractionManagerV1) (v : Vault)
      (hreach : Reachable env s)
      (hproc : process_validate_fraction_safety_deposit_box env.program_id accts cfg =
        Except.ok final)
      (hfm : accts.fraction_manager_info.contents = AccountContents.fractionManagerV1 s.fm)
      (hvault : accts.vault_info.contents = AccountContents.vault v)
      (hN : v.token_type_count = env.box_count)
      (hbox : accts.safety_deposit_info.key ∈ env.boxes)
      (hempty : accts.safety_deposit_config_info.contents = AccountContents.empty ↔
        accts.safety_deposit_info.key ∉ s.validated)
      (hfm' : final.fraction_manager_info.contents = AccountContents.fractionManagerV1 fm') :
      Reachable env { fm := fm', validated := insert accts.safety_deposit_info.key s.validated }

/-- The inductive invariant of the campaign progress tracker: the validated set
stays inside the campaign's boxes, the counter counts the validated boxes, and
the status is `Validated` exactly when the counter has reached the declared box
count. -/
theorem reachable_invariant (env : CampaignEnv) (hcard : env.boxes.card = env.box_count)
    (hpos : 0 < env.box_count) :
    ∀ s, Reachable env s →
      s.validated ⊆ env.boxes ∧
      s.fm.state.safety_config_items_validated = s.validated.card ∧
      (s.fm.state.status = FractionManagerStatus.Validated ↔
        s.validated.card = env.box_count) := by
  intro s hreach
  induction hreach with
  | init fm0 hcount hstatus =>
    refine ⟨Finset.empty_subset _, by simpa using hcount, ?_⟩
    rw [hstatus]
    simp only [Finset.card_empty]
    constructor
    · intro hcontra; exact absurd hcontra (by simp)
    · intro hzero; omega
  | step s accts final cfg fm' v hreach hproc hfm hvault hN hbox hempty hfm' ih =>
    obtain ⟨hsub, hcount, hstatus⟩ := ih
    obtain ⟨fm0, sd0, md0, st0, v0, w0, h0, hfm0, hsd0, hmd0, hst0, hv0, hcc, hsc, hord,
      hfinal⟩ := process_ok_elim hproc
    have hfmEq : fm0 = s.fm := by
      rw [hfm0] at hfm
      exact (AccountContents.fractionManagerV1.injEq _ _).mp hfm
    have hvEq : v0 = v := by
      rw [hv0] at hvault
      exact (AccountContents.vault.injEq _ _).mp hvault
    have hnotmem : accts.safety_deposit_info.key ∉ s.validated := hempty.mp h0
    have hcardins :
        (insert accts.safety_deposit_info.key s.validated).card = s.validated.card + 1 :=
      Finset.card_insert_of_not_mem hnotmem
    have hlt : s.validated.card < env.box_count := by
      rcases lt_or_eq_of_le (le_of_le_of_eq (Finset.card_le_card hsub) hcard) with hlt | heq
      · exact hlt
      · exfalso
        have hval_eq : s.validated = env.boxes :=
          Finset.eq_of_subset_of_card_le hsub (by omega)
        exact hnotmem (hval_eq ▸ hbox)
    have hfm'Eq : fm' = { fm0 with state := {
        status := if fm0.state.safety_config_items_validated + 1 = v0.token_type_count
          then FractionManagerStatus.Validated else fm0.state.status,
        safety_config_items_validated := fm0.state.safety_config_items_validated + 1 } } := by
      rw [hfinal] at hfm'
      simp only at hfm'
      exact (AccountContents.fractionManagerV1.injEq _ _).mp hfm'.symm
    subst hfmEq hvEq
    refine ⟨Finset.insert_subset hbox hsub, ?_, ?_⟩
    · rw [hfm'Eq, hcardins]
      simp [hcount]
    · rw [hfm'Eq, hcardins]
      simp only [hcount, hN]
      by_cases hreached : s.validated.card + 1 = env.box_count
      · simp [hreached]
      · simp only [hreached, if_neg hreached, iff_false]
        intro hcontra
        have : s.validated.card = env.box_count := hstatus.mp hcontra
        omega

/-- The replay guard: any invocation whose Safety-Deposit Config account data is
non-empty fails immediately with `AlreadyValidated`. -/
theorem process_config_nonempty_error (pid : Pubkey) (accts : Accounts)
    (cfg : FractionSafetyDepositConfig)
    (h : accts.safety_deposit_config_info.contents ≠ AccountContents.empty) :
    process_validate_fraction_safety_deposit_box pid accts cfg =
      Except.error MetaplexError.AlreadyValidated := by
  simp [process_validate_fraction_safety_deposit_box, data_is_empty, h, throw_eq, pure_eq,
    error_bind, ok_bind]

/-- A successful run leaves the Safety-Deposit Config account non-empty, holding
the written config record. -/
theorem process_ok_config_written {pid : Pubkey} {accts : Accounts}
    {cfg : FractionSafetyDepositConfig} {final : Accounts}
    (h : process_validate_fraction_safety_deposit_box pid accts cfg = Except.ok final) :
    final.safety_deposit_config_info.contents =
      AccountContents.fractionSafetyDepositConfig
        { key := Key.FractionSafetyDepositConfigV1
          fraction_manager := accts.fraction_manager_info.key
          order := cfg.order
          fraction_winning_config_type := cfg.fraction_winning_config_type } := by
  obtain ⟨fm, sd, md, st, v, w, h0, hfm, hsd, hmd, hst, hv, hcc, hsc, hord, hfinal⟩ :=
    process_ok_elim h
  rw [hfinal]
  rfl

/-- Claim C9: the replay guard takes precedence over every other check — for any
input whose Safety-Deposit Config account is non-empty, the entry operation
returns `AlreadyValidated`, with no assumption whatsoever on the shape,
ownership or consistency of the other supplied records. -/
theorem c9_replay_guard_precedence (pid : Pubkey) (accts : Accounts)
    (cfg : FractionSafetyDepositConfig)
    (h : accts.safety_deposit_config_info.contents ≠ AccountContents.empty) :
    process_validate_fraction_safety_deposit_box pid accts cfg =
      Except.error MetaplexError.AlreadyValidated :=
  process_config_nonempty_error pid accts cfg h

/-- An account set whose records are all unrecognisable garbage, with a
non-empty config slot: only the replay guard can speak about it. -/
def junk : Accounts :=
  { safety_deposit_config_info := { key := 0, owner := 0, contents := AccountContents.other }
    fraction_manager_info := { key := 0, owner := 0, contents := AccountContents.other }
    metadata_info := { key := 0, owner := 0, contents := AccountContents.other }
    original_authority_lookup_info := { key := 0, owner := 0, contents := AccountContents.other }
    whitelisted_creator_info := { key := 0, owner := 0, contents := AccountContents.other }
    fraction_manager_store_info := { key := 0, owner := 0, contents := AccountContents.other }
    safety_deposit_info := { key := 0, owner := 0, contents := AccountContents.other }
    safety_deposit_token_store_info := { key := 0, owner := 0, contents := AccountContents.other }
    mint_info := { key := 0, owner := 0, contents := AccountContents.other }
    edition_info := { key := 0, owner := 0, contents := AccountContents.other }
    vault_info := { key := 0, owner := 0, contents := AccountContents.other }
    authority_info := { key := 0, owner := 0, contents := AccountContents.other }
    metadata_authority_info := { key := 0, owner := 0, contents := AccountContents.other }
    payer_info := { key := 0, owner := 0, contents := AccountContents.other }
    token_metadata_program_info := { key := 0, owner := 0, contents := AccountContents.other }
    system_info := { key := 0, owner := 0, contents := AccountContents.other }
    rent_info := { key := 0, owner := 0, contents := AccountContents.other } }

/-- Witness for claim C9, on an input where every record is malformed. -/
theorem c9_replay_guard_precedence_witness :
    process_validate_fraction_safety_deposit_box 1 junk goldCfg =
      Except.error MetaplexError.AlreadyValidated :=
  c9_replay_guard_precedence 1 junk goldCfg (by decide)

/-- Claim C2: once the entry operation has succeeded for a box, its config
account is non-empty, and invoking the operation again on the resulting state
fails with the `AlreadyValidated` replay error and (by the transactional
semantics) leaves the state exactly as it was after the first call, whatever
instruction argument the second call supplies. -/
theorem c2_second_call_replays (pid : Pubkey) (accts : Accounts)
    (cfg : FractionSafetyDepositConfig) (final : Accounts)
    (h : process_validate_fraction_safety_deposit_box pid accts cfg = Except.ok final) :
    final.safety_deposit_config_info.contents ≠ AccountContents.empty ∧
    ∀ cfg2 : FractionSafetyDepositConfig,
      process_validate_fraction_safety_deposit_box pid final cfg2 =
        Except.error MetaplexError.AlreadyValidated ∧
      runProcess pid final cfg2 = final := by
  have hw := process_ok_config_written h
  have hne : final.safety_deposit_config_info.contents ≠ AccountContents.empty := by
    rw [hw]; intro hcontra; exact AccountContents.noConfusion hcontra
  refine ⟨hne, fun cfg2 => ?_⟩
  have herr := process_config_nonempty_error pid final cfg2 hne
  exact ⟨herr, by simp [runProcess, herr]⟩

/-- Witness for claim C2, on the worked unique-edition example. -/
theorem c2_second_call_replays_witness :
    goldFinal.safety_deposit_config_info.contents ≠ AccountContents.empty ∧
    (process_validate_fraction_safety_deposit_box 1 goldFinal goldCfg =
        Except.error MetaplexError.AlreadyValidated ∧
      runProcess 1 goldFinal goldCfg = goldFinal) :=
  have H := c2_second_call_replays 1 gold goldCfg goldFinal rfl
  ⟨H.1, H.2 goldCfg⟩

/-- Claim C10: a successful invocation rewrites the Campaign Manager account
with a record that differs from the supplied one only in the validated-box
counter (incremented by one) and possibly the status field; the discriminant
tag, authority, vault reference and store reference are unchanged. -/
theorem c10_manager_frame (pid : Pubkey) (accts : Accounts)
    (cfg : FractionSafetyDepositConfig) (final : Accounts) (fm : FractionManagerV1)
    (hfm : accts.fraction_manager_info.contents = AccountContents.fractionManagerV1 fm)
    (h : process_validate_fraction_safety_deposit_box pid accts cfg = Except.ok final) :
    ∃ status' : FractionManagerStatus,
      final.fraction_manager_info = { accts.fraction_manager_info with
        contents := AccountContents.fractionManagerV1 { fm with state := {
          status := status'
          safety_config_items_validated := fm.state.safety_config_items_validated + 1 } } } ∧
      (status' = fm.state.status ∨ status' = FractionManagerStatus.Validated) := by
  obtain ⟨fm0, sd, md, st, v, w, h0, hfm0, hsd, hmd, hst, hv, hcc, hsc, hord, hfinal⟩ :=
    process_ok_elim h
  have hfmEq : fm0 = fm := by
    rw [hfm0] at hfm
    exact (AccountContents.fractionManagerV1.injEq _ _).mp hfm
  subst hfmEq
  have e : final.fraction_manager_info = { accts.fraction_manager_info with
      contents := AccountContents.fractionManagerV1 { fm0 with state := {
        status := if fm0.state.safety_config_items_validated + 1 = v.token_type_count
          then FractionManagerStatus.Validated else fm0.state.status
        safety_config_items_validated := fm0.state.safety_config_items_validated + 1 } } } := by
    rw [hfinal]
  by_cases hc : fm0.state.safety_config_items_validated + 1 = v.token_type_count
  · exact ⟨_, e, Or.inr (if_pos hc)⟩
  · exact ⟨_, e, Or.inl (if_neg hc)⟩

/-- Witness for claim C10, on the worked unique-edition example. -/
theorem c10_manager_frame_witness :
    ∃ status' : FractionManagerStatus,
      goldFinal.fraction_manager_info = { gold.fraction_manager_info with
        contents := AccountContents.fractionManagerV1 { goldFm with state := {
          status := status'
          safety_config_items_validated :=
            goldFm.state.safety_config_items_validated + 1 } } } ∧
      (status' = goldFm.state.status ∨ status' = FractionManagerStatus.Validated) :=
  c10_manager_frame 1 gold goldCfg goldFinal goldFm rfl rfl

/-- Claim C1: for the unique-edition variant, a successful invocation finds the
Original-Authority Lookup slot empty, creates in it exactly one lookup record
tagged `OriginalAuthorityLookupV1` whose stored original authority is the asset
metadata's update authority before the call, and afterwards the asset
metadata's update authority is the Campaign Manager account's address. -/
theorem c1_unique_edition_custody_transfer (pid : Pubkey) (accts : Accounts)
    (cfg : FractionSafetyDepositConfig) (final : Accounts) (md : Metadata)
    (hty : cfg.fraction_winning_config_type =
      FractionWinningConfigType.FractionMasterEditionV2)
    (hmd : accts.metadata_info.contents = AccountContents.metadata md)
    (h : process_validate_fraction_safety_deposit_box pid accts cfg = Except.ok final) :
    accts.original_authority_lookup_info.contents = AccountContents.empty ∧
    final.original_authority_lookup_info.contents =
      AccountContents.originalAuthorityLookup
        { key := Key.OriginalAuthorityLookupV1
          original_authority := md.update_authority } ∧
    final.metadata_info.contents =
      AccountContents.metadata { md with update_authority := accts.fraction_manager_info.key } := by
  obtain ⟨fm, sd, md0, st, v, w, h0, hfm, hsd, hmd0, hst, hv, hcc, hsc, hord, hfinal⟩ :=
    process_ok_elim h
  have hmdEq : md0 = md := by
    rw [hmd0] at hmd
    exact (AccountContents.metadata.injEq _ _).mp hmd
  subst hmdEq
  obtain ⟨ts, md2, hts, hupd, hmint, hamt, hoalempty, hmd2c, hmd2u, hp1, hp2⟩ :=
    supply_master_ok_elim hty hsc
  have hmd2c' : accts.metadata_info.contents = AccountContents.metadata md2 := hmd2c
  have hmd2Eq : md2 = md0 := by
    rw [hmd0] at hmd2c'
    exact ((AccountContents.metadata.injEq _ _).mp hmd2c').symm
  subst hmd2Eq
  have hupd' : md2.update_authority = accts.metadata_authority_info.key := hupd
  have e1 : final.metadata_info = w.1 := by rw [hfinal]
  have e2 : final.original_authority_lookup_info = w.2 := by rw [hfinal]
  refine ⟨hoalempty, ?_, ?_⟩
  · rw [e2, hp2]
    simp [supplyArgsOf, hupd'.symm]
  · rw [e1, hp1]
    simp [supplyArgsOf]

/-- Witness for claim C1, on the worked unique-edition example. -/
theorem c1_unique_edition_custody_transfer_witness :
    gold.original_authority_lookup_info.contents = AccountContents.empty ∧
    goldFinal.original_authority_lookup_info.contents =
      AccountContents.originalAuthorityLookup
        { key := Key.OriginalAuthorityLookupV1
          original_authority := goldMd.update_authority } ∧
    goldFinal.metadata_info.contents =
      AccountContents.metadata { goldMd with update_authority := gold.fraction_manager_info.key } :=
  c1_unique_edition_custody_transfer 1 gold goldCfg goldFinal goldMd rfl rfl rfl

/-- Concrete supply-logic arguments for the worked example, with an adjustable
token-store amount. -/
def goldSupplyArgs (amount : Nat) : SupplyLogicCheckArgs :=
  { program_id := 1
    fraction_manager_info := gold.fraction_manager_info
    metadata_info := gold.metadata_info
    edition_info := gold.edition_info
    metadata_authority_info := gold.metadata_authority_info
    original_authority_lookup_info := gold.original_authority_lookup_info
    rent_info := gold.rent_info
    system_info := gold.system_info
    payer_info := gold.payer_info
    token_metadata_program_info := gold.token_metadata_program_info
    safety_deposit_token_store_info :=
      { key := 19, owner := 2
        contents := AccountContents.tokenAccount
          { mint := 14, amount := amount, isInitialized := true } }
    fraction_manager := goldFm
    winning_config_type := FractionWinningConfigType.FractionMasterEditionV2
    metadata := goldMd
    safety_deposit := goldSd
    store := goldStore }

/-- Witness for claim C7: a store holding zero units and one holding two units
both fail with `StoreIsEmpty`; a store holding exactly one unit does not. -/
theorem c7_store_amount_exactly_one_witness :
    assert_supply_logic_check (goldSupplyArgs 0) =
        Except.error MetaplexError.StoreIsEmpty ∧
    assert_supply_logic_check (goldSupplyArgs 2) =
        Except.error MetaplexError.StoreIsEmpty ∧
    assert_supply_logic_check (goldSupplyArgs 1) ≠
        Except.error MetaplexError.StoreIsEmpty :=
  ⟨(c7_store_amount_exactly_one (goldSupplyArgs 0)
      { mint := 14, amount := 0, isInitialized := true } rfl rfl rfl rfl rfl).1 (by decide),
   (c7_store_amount_exactly_one (goldSupplyArgs 2)
      { mint := 14, amount := 2, isInitialized := true } rfl rfl rfl rfl rfl).1 (by decide),
   (c7_store_amount_exactly_one (goldSupplyArgs 1)
      { mint := 14, amount := 1, isInitialized := true } rfl rfl rfl rfl rfl).2 rfl⟩

/-- Claim C8: the Common Invariant Checker holds two comparisons of the supplied
metadata-registrant identity against the Store's recorded value; when the
identities differ, the first fails with `FractionManagerTokenMetadataMismatch`,
the second, defensive duplicate fails with
`FractionManagerTokenMetadataProgramMismatch`, and the two errors belong to the
same class of the error taxonomy. -/
theorem c8_duplicate_registrant_check (k : Pubkey) (st : Store)
    (hne : k ≠ st.token_metadata_program) :
    check_token_metadata_program_first k st =
      Except.error MetaplexError.FractionManagerTokenMetadataMismatch ∧
    check_token_metadata_program_second k st =
      Except.error MetaplexError.FractionManagerTokenMetadataProgramMismatch ∧
    errorKindOf MetaplexError.FractionManagerTokenMetadataProgramMismatch =
      errorKindOf MetaplexError.FractionManagerTokenMetadataMismatch := by
  refine ⟨?_, ?_, rfl⟩
  · simp [check_token_metadata_program_first, hne]
  · simp [check_token_metadata_program_second, hne]

/-- Witness for claim C8, at a registrant identity differing from the Store's. -/
theorem c8_duplicate_registrant_check_witness :
    check_token_metadata_program_first 9 goldStore =
      Except.error MetaplexError.FractionManagerTokenMetadataMismatch ∧
    check_token_metadata_program_second 9 goldStore =
      Except.error MetaplexError.FractionManagerTokenMetadataProgramMismatch ∧
    errorKindOf MetaplexError.FractionManagerTokenMetadataProgramMismatch =
      errorKindOf MetaplexError.FractionManagerTokenMetadataMismatch :=
  c8_duplicate_registrant_check 9 goldStore (by decide)

/-- Concrete fungible-variant supply-logic arguments for the worked example. -/
def goldSupplyArgsToken (amount : Nat) : SupplyLogicCheckArgs :=
  { goldSupplyArgs amount with
    winning_config_type := FractionWinningConfigType.FractionToken }

/-- Claim C6: for the fungible variant, a successful invocation leaves the asset
metadata account and the (empty) Original-Authority Lookup account exactly as
supplied — no lookup record is created and the update authority is untouched —
and, inside the fungible branch of the supply-logic check (after the shared
token-store initialization read), the only check performed is that the box's
token mint equals the asset metadata's mint. -/
theorem c6_fungible_no_custody_transfer (pid : Pubkey) (accts : Accounts)
    (cfg : FractionSafetyDepositConfig) (final : Accounts)
    (hty : cfg.fraction_winning_config_type = FractionWinningConfigType.FractionToken)
    (h : process_validate_fraction_safety_deposit_box pid accts cfg = Except.ok final) :
    final.metadata_info = accts.metadata_info ∧
    final.original_authority_lookup_info = accts.original_authority_lookup_info ∧
    accts.original_authority_lookup_info.contents = AccountContents.empty ∧
    (∀ (args : SupplyLogicCheckArgs) (p : Account × Account) (ts : TokenAccount),
      args.winning_config_type = FractionWinningConfigType.FractionToken →
      assert_initialized_token_account args.safety_deposit_token_store_info = Except.ok ts →
      ((assert_supply_logic_check args = Except.ok p ↔
          (args.safety_deposit.token_mint = args.metadata.mint ∧
            p = (args.metadata_info, args.original_authority_lookup_info))) ∧
        (args.safety_deposit.token_mint ≠ args.metadata.mint →
          assert_supply_logic_check args =
            Except.error MetaplexError.SafetyDepositBoxMetadataMismatch))) := by
  obtain ⟨fm, sd, md, st, v, w, h0, hfm, hsd, hmd, hst, hv, hcc, hsc, hord, hfinal⟩ :=
    process_ok_elim h
  have hscTok := (supply_token_ok_iff (p := w) hty).mp hsc
  obtain ⟨-, -, hw⟩ := hscTok
  have e1 : final.metadata_info = w.1 := by rw [hfinal]
  have e2 : final.original_authority_lookup_info = w.2 := by rw [hfinal]
  have hwe : w = (accts.metadata_info, accts.original_authority_lookup_info) := hw
  refine ⟨by rw [e1, hwe], by rw [e2, hwe],
    common_ok_lookup_empty hcc, ?_⟩
  intro args p ts htyA hts
  constructor
  · rw [supply_token_ok_iff htyA]
    constructor
    · rintro ⟨-, hm, hp⟩; exact ⟨hm, hp⟩
    · rintro ⟨hm, hp⟩; exact ⟨⟨ts, hts⟩, hm, hp⟩
  · intro hnm
    simp [assert_supply_logic_check, htyA, hts, ok_bind, error_bind, throw_eq, pure_eq, hnm]

/-- Witness for claim C6, on the worked fungible example. -/
theorem c6_fungible_no_custody_transfer_witness :
    goldFinalToken.metadata_info = gold.metadata_info ∧
    goldFinalToken.original_authority_lookup_info = gold.original_authority_lookup_info ∧
    gold.original_authority_lookup_info.contents = AccountContents.empty ∧
    ((assert_supply_logic_check (goldSupplyArgsToken 1) =
          Except.ok (gold.metadata_info, gold.original_authority_lookup_info) ↔
        ((goldSupplyArgsToken 1).safety_deposit.token_mint =
            (goldSupplyArgsToken 1).metadata.mint ∧
          (gold.metadata_info, gold.original_authority_lookup_info) =
            ((goldSupplyArgsToken 1).metadata_info,
              (goldSupplyArgsToken 1).original_authority_lookup_info))) ∧
      ((goldSupplyArgsToken 1).safety_deposit.token_mint ≠
          (goldSupplyArgsToken 1).metadata.mint →
        assert_supply_logic_check (goldSupplyArgsToken 1) =
          Except.error MetaplexError.SafetyDepositBoxMetadataMismatch)) :=
  have H := c6_fungible_no_custody_transfer 1 gold goldCfgToken goldFinalToken rfl rfl
  ⟨H.1, H.2.1, H.2.2.1, H.2.2.2 (goldSupplyArgsToken 1)
    (gold.metadata_info, gold.original_authority_lookup_info)
    { mint := 14, amount := 1, isInitialized := true } rfl rfl⟩

/-- The example accounts with an already-occupied Safety-Deposit Config slot. -/
def cexAccts : Accounts :=
  { gold with safety_deposit_config_info :=
      { key := cfgKey, owner := 0, contents := AccountContents.other } }

/-- An instruction argument whose declared order (1) differs from the example
box's stored order (0), for the unique-edition variant. -/
def cexOrderCfg : FractionSafetyDepositConfig :=
  { order := 1, fraction_winning_config_type := FractionWinningConfigType.FractionMasterEditionV2 }

/-- Counterexample to claim C4 as stated: on this input the box's stored order
(0) differs from the config's declared order (1), yet the entry operation fails
with `AlreadyValidated` — not with the order-mismatch error — because the
replay guard fires first. -/
theorem c4_counterexample :
    cexOrderCfg.order ≠ goldSd.order ∧
    cexAccts.safety_deposit_info.contents = AccountContents.safetyDepositBox goldSd ∧
    process_validate_fraction_safety_deposit_box 1 cexAccts cexOrderCfg =
      Except.error MetaplexError.AlreadyValidated ∧
    MetaplexError.AlreadyValidated ≠ MetaplexError.SafetyDepositConfigOrderMismatch :=
  ⟨by decide, rfl, rfl, by decide⟩

/-- Claim C4 (amended): whenever the box's stored order differs from the
config's declared order the entry operation never succeeds and, by the
transactional semantics, writes nothing; and if every check preceding the order
comparison passes — empty config slot, well-formed records, common checks and
supply-logic checks all succeeding — then the error is precisely
`SafetyDepositConfigOrderMismatch`. -/
theorem c4_order_mismatch_never_succeeds (pid : Pubkey) (accts : Accounts)
    (cfg : FractionSafetyDepositConfig) (sd : SafetyDepositBox)
    (hsd : accts.safety_deposit_info.contents = AccountContents.safetyDepositBox sd)
    (hord : cfg.order ≠ sd.order) :
    (∀ final, process_validate_fraction_safety_deposit_box pid accts cfg ≠ Except.ok final) ∧
    runProcess pid accts cfg = accts ∧
    (∀ (fm : FractionManagerV1) (md : Metadata) (st : Store) (v : Vault)
        (w : Account × Account),
      accts.safety_deposit_config_info.contents = AccountContents.empty →
      accts.fraction_manager_info.contents = AccountContents.fractionManagerV1 fm →
      accts.metadata_info.contents = AccountContents.metadata md →
      accts.fraction_manager_store_info.contents = AccountContents.store st →
      accts.vault_info.contents = AccountContents.vault v →
      assert_common_checks (commonArgsOf pid accts fm md sd st v cfg) = Except.ok () →
      assert_supply_logic_check (supplyArgsOf pid accts fm md sd st cfg) = Except.ok w →
      process_validate_fraction_safety_deposit_box pid accts cfg =
        Except.error MetaplexError.SafetyDepositConfigOrderMismatch) := by
  have hnever :
      ∀ final, process_validate_fraction_safety_deposit_box pid accts cfg ≠ Except.ok final := by
    intro final hok
    obtain ⟨fm, sd0, md, st, v, w, h0, hfm, hsd0, hmd, hst, hv, hcc, hsc, hord0, hfinal⟩ :=
      process_ok_elim hok
    have hsdEq : sd0 = sd := by
      rw [hsd0] at hsd
      exact (AccountContents.safetyDepositBox.injEq _ _).mp hsd
    exact hord (hsdEq ▸ hord0)
  refine ⟨hnever, ?_, ?_⟩
  · unfold runProcess
    cases hp : process_validate_fraction_safety_deposit_box pid accts cfg with
    | ok f => exact absurd hp (hnever f)
    | error e => rfl
  · intro fm md st v w hempty hfm hmd hst hv hcc hsc
    simp only [process_validate_fraction_safety_deposit_box, data_is_empty, hempty,
      fm_from_ok_iff.mpr hfm, sd_from_ok_iff.mpr hsd, md_from_ok_iff.mpr hmd,
      store_from_ok_iff.mpr hst, vault_from_ok_iff.mpr hv, ok_bind, error_bind,
      throw_eq, pure_eq, not_true, not_false_iff, ite_false, ite_true, if_true, if_false]
    have hcc' := hcc
    have hsc' := hsc
    simp only [commonArgsOf] at hcc'
    simp only [supplyArgsOf] at hsc'
    simp only [hcc', hsc', ok_bind, hord, ne_eq, not_false_iff, ite_true, if_true]

/-- The pair of accounts written by the supply-logic check on the worked
example (updated metadata account and created lookup account). -/
def goldWritten : Account × Account :=
  ({ key := 13, owner := 4
     contents := AccountContents.metadata
       { update_authority := 10, mint := 14, creators := none } },
   { key := oalKey, owner := 1
     contents := AccountContents.originalAuthorityLookup
       { key := Key.OriginalAuthorityLookupV1, original_authority := 17 } })

/-- Witness for claim C4 (amended), on the worked example with a mismatched
declared order: the run fails with exactly the order-mismatch error and the
state is unchanged. -/
theorem c4_order_mismatch_never_succeeds_witness :
    cexOrderCfg.order ≠ goldSd.order ∧
    (∀ final, process_validate_fraction_safety_deposit_box 1 gold cexOrderCfg ≠
      Except.ok final) ∧
    runProcess 1 gold cexOrderCfg = gold ∧
    process_validate_fraction_safety_deposit_box 1 gold cexOrderCfg =
      Except.error MetaplexError.SafetyDepositConfigOrderMismatch :=
  have H := c4_order_mismatch_never_succeeds 1 gold cexOrderCfg goldSd rfl (by decide)
  ⟨by decide, H.1, H.2.1,
    H.2.2 goldFm goldMd goldStore goldVault goldWritten rfl rfl rfl rfl rfl rfl rfl⟩

/-- Claim C3: in every state reachable by repeated invocations of the entry
operation on a campaign whose vault declares a positive box count equal to the
number of its boxes, the validated-box counter never exceeds the declared box
count, and the status is `Validated` exactly when the counter equals that
count. -/
theorem c3_counter_bounded_status_at_count (env : CampaignEnv) (s : CampaignState)
    (hcard : env.boxes.card = env.box_count) (hpos : 0 < env.box_count)
    (hreach : Reachable env s) :
    s.fm.state.safety_config_items_validated ≤ env.box_count ∧
    (s.fm.state.status = FractionManagerStatus.Validated ↔
      s.fm.state.safety_config_items_validated = env.box_count) := by
  obtain ⟨hsub, hcount, hstatus⟩ := reachable_invariant env hcard hpos s hreach
  refine ⟨?_, ?_⟩
  · rw [hcount]
    exact le_of_le_of_eq (Finset.card_le_card hsub) hcard
  · rw [hcount]
    exact hstatus

/-- The single-box campaign environment of the worked example. -/
def initEnv : CampaignEnv := { program_id := 1, boxes := {sdKey}, box_count := 1 }

/-- The initial campaign state of the worked example. -/
def initState : CampaignState := { fm := goldFm, validated := ∅ }

/-- Witness for claim C3, at the initial state of the worked campaign. -/
theorem c3_counter_bounded_status_at_count_witness :
    initState.fm.state.safety_config_items_validated ≤ initEnv.box_count ∧
    (initState.fm.state.status = FractionManagerStatus.Validated ↔
      initState.fm.state.safety_config_items_validated = initEnv.box_count) :=
  c3_counter_bounded_status_at_count initEnv initState rfl (by decide)
    (Reachable.init goldFm rfl rfl)

/-- Claim C5: in every reachable campaign state, the status is `Validated` if
and only if the number of distinct boxes successfully processed equals the
declared box count — and since this holds for every reachable state, the
outcome does not depend on the order in which the boxes were processed. -/
theorem c5_validated_iff_all_boxes_processed (env : CampaignEnv) (s : CampaignState)
    (hcard : env.boxes.card = env.box_count) (hpos : 0 < env.box_count)
    (hreach : Reachable env s) :
    s.fm.state.status = FractionManagerStatus.Validated ↔
      s.validated.card = env.box_count :=
  (reachable_invariant env hcard hpos s hreach).2.2

/-- Witness for claim C5, at the initial state of the worked campaign. -/
theorem c5_validated_iff_all_boxes_processed_witness :
    initState.fm.state.status = FractionManagerStatus.Validated ↔
      initState.validated.card = initEnv.box_count :=
  c5_validated_iff_all_boxes_processed initEnv initState rfl (by decide)
    (Reachable.init goldFm rfl rfl)

end Metaplex
